import Mathlib

/-!
Verification development for the request-dispatch and streaming-fan-out
subsystem of the assistant-gateway server (`server/web_server.py`,
`core/chat.py`, `core/analysis.py`, `core/constants.py`, `core/voice.py`).

The Python sources are shallowly embedded: pure request/string processing
becomes Lean functions, the module-level mutable state (the HISTORY list and
the global settings object) becomes an explicit `SharedState` threaded through
the task functions, socket emissions become an explicit `Event` list, and the
external AI backends / STT / TTS engines become `Except`-valued parameters.
Filesystem contents (uploaded files, their UTF-8 decoding, their on-disk size)
are inputs.  Timestamps are carried as plain naturals (the code divides a
millisecond count by 1000 merely for display).
-/

namespace WebDispatch

/-! ## core/constants.py — the provider registry -/

/-- Model ids of `_AVAILABLE_OPENAI_MODELS` (insertion order of the OrderedDict). -/
def openaiModels : List String :=
  ["gpt-4o", "o4-mini", "o3", "o1-pro", "gpt-4.1", "gpt-4.1-mini",
   "gpt-4.1-nano", "gpt-3.5-turbo"]

/-- Model ids of `_AVAILABLE_GEMINI_MODELS`. -/
def geminiModels : List String :=
  ["gemini-2.5-pro-preview-05-06", "gemini-2.5-flash-preview-04-17",
   "gemini-2.0-flash", "gemini-1.5-pro", "gemini-1.5-flash", "gemini-1.0-pro"]

/-- Model ids of `_AVAILABLE_CLAUDE_MODELS`. -/
def claudeModels : List String :=
  ["claude-3.7-sonnet", "claude-3.5-sonnet", "claude-3.5-haiku",
   "claude-3-opus", "claude-3-sonnet", "claude-3-haiku"]

/-- Model ids of `_AVAILABLE_GROK_MODELS`. -/
def grokModels : List String :=
  ["grok-1.5", "grok-1"]

/-- Python `ALL_AVAILABLE_MODELS.get(p, {})` keyed lookup: the model-id set of a
provider, empty for an unknown provider. -/
def modelsOf (p : String) : List String :=
  if p = "openai" then openaiModels
  else if p = "gemini" then geminiModels
  else if p = "claude" then claudeModels
  else if p = "grok" then grokModels
  else []

/-- The registry scan `for p_name, models in ALL_AVAILABLE_MODELS.items():
if model_id in models: break` — first provider (in the OrderedDict insertion
order openai, gemini, claude, grok) whose model set contains `m`. -/
def firstProviderFor (m : String) : Option String :=
  if openaiModels.contains m then some "openai"
  else if geminiModels.contains m then some "gemini"
  else if claudeModels.contains m then some "claude"
  else if grokModels.contains m then some "grok"
  else none

/-- Port of `get_default_model_for_provider`: the per-provider default model id, or,
for an unlisted provider, the first model of its (empty) registry entry. -/
def getDefaultModelForProvider (p : String) : Option String :=
  if p = "openai" then some "gpt-4o"
  else if p = "gemini" then some "gemini-2.5-flash-preview-04-17"
  else if p = "claude" then some "claude-3.7-sonnet"
  else if p = "grok" then some "grok-1.5"
  else (modelsOf p).head?

/-! ## Python truthiness on optional strings -/

/-- Python `if x:` on an optional string: `None` and `""` are falsy.
`truthy o = some s` exactly when `o` holds a non-empty string `s`. -/
def truthy : Option String → Option String
  | some s => if s = "" then none else some s
  | none => none

/-- Render an optional string the way a Python f-string renders it
(`None` for the absent case), used in diagnostic messages. -/
def pyOpt : Option String → String
  | some s => s
  | none => "None"

/-! ## `_determine_model_and_provider` (web_server.py) and the twin
resolution logic inlined in `chat_only` / `analyze_image` (core). -/

/-- Shared body of the resolution logic: provider taken as requested if
truthy, else inferred by registry scan from the model id, else
`fallbackProvider`; model taken as requested if truthy, else the resolved
provider's default; finally validated against the registry (both must be
truthy, the provider registered, and the model in the provider's set),
returning `(none, none)` on any validation failure. -/
def resolveCore (modelId providerName : Option String) (fallbackProvider : String) :
    Option String × Option String :=
  let m0 := truthy modelId
  let p0 := truthy providerName
  let p1 : Option String :=
    match p0 with
    | some p => some p
    | none =>
        match m0 with
        | some m =>
            match firstProviderFor m with
            | some p => some p
            | none => some fallbackProvider
        | none => some fallbackProvider
  let m1 : Option String :=
    match m0 with
    | some m => some m
    | none => p1.bind getDefaultModelForProvider
  match truthy m1, truthy p1 with
  | some m, some p => if (modelsOf p).contains m then (some m, some p) else (none, none)
  | _, _ => (none, none)

/-- Port of `_determine_model_and_provider(requested_model_id, requested_provider,
default_provider_type)`: the fallback provider is
`settings.image_analysis_provider or default_provider_type` (Python `or`,
so the empty string falls through to the default). -/
def determineModelAndProvider (modelId providerName : Option String)
    (imageAnalysisProvider defaultProviderType : String) :
    Option String × Option String :=
  resolveCore modelId providerName
    (if imageAnalysisProvider = "" then defaultProviderType else imageAnalysisProvider)

/-! ## Shared mutable state: the global settings object and HISTORY

`core/settings.py` defines the global `settings`.  The code additionally
reads `settings.MAX_TEXT_FILE_CHARS`, `settings.DEFAULT_CHAT_PROVIDER` and
reads/writes `settings.stt_provider`, attributes the `Settings` class never
declares; they are modelled here as fields, following the code's usage (the
spec gives 4000 as the `MAX_TEXT_FILE_CHARS` default).  API keys only matter
through their presence, hence `Bool` fields. -/

/-- The global settings object (the fields the dispatch code reads/writes). -/
structure Settings where
  sttProvider : String
  imageAnalysisProvider : String
  defaultChatProvider : String
  openaiKey : Bool
  geminiKey : Bool
  maxTextFileChars : Nat
deriving DecidableEq

/-- One element of the module-level `HISTORY` list, as built by
`_task_analyze_image` (the float `timestamp_ms / 1000` is carried as the
original millisecond count). -/
structure HistoryEntry where
  imageUrl : String
  analysis : String
  promptUsed : String
  timestampMs : Nat
  provider : String
  modelId : String
deriving DecidableEq

/-- The cross-task shared mutable state: the global settings object and the
module-level `HISTORY` list (appends are serialized by `HISTORY_LOCK`; the
lock itself needs no model in this sequential embedding). -/
structure SharedState where
  settings : Settings
  history : List HistoryEntry
deriving DecidableEq

/-! ## Socket emissions -/

/-- The socket.io emissions performed by the background tasks, with the
payload fields the claims depend on.  Every event carries the task's
request id (correlation id) except `newScreenshot`, which broadcasts the
raw history entry. -/
inductive Event where
  | analysisResult (rid url analysis : String)
  | analysisError (rid url error : String)
  | newScreenshot (entry : HistoryEntry)
  | chatStreamChunk (rid chunk provider modelId : String)
  | chatStreamEnd (rid fullMessage provider modelId : String)
  | chatResponse (rid message provider modelId : String)
  | taskError (rid error : String)
  | sttResult (rid transcript provider : String)
  | sttError (rid error provider : String)
  | chatError (rid error : String)
  | voiceChatResponse (rid transcript chatProvider message : String)
  | voiceAnswerAudio (rid audioUrl : String)
deriving DecidableEq

/-- The request id an event is tagged with (`newScreenshot` broadcasts carry
no request id; they demultiplex by payload). -/
def Event.reqId : Event → String
  | .analysisResult rid _ _ => rid
  | .analysisError rid _ _ => rid
  | .newScreenshot _ => ""
  | .chatStreamChunk rid _ _ _ => rid
  | .chatStreamEnd rid _ _ _ => rid
  | .chatResponse rid _ _ _ => rid
  | .taskError rid _ => rid
  | .sttResult rid _ _ => rid
  | .sttError rid _ _ => rid
  | .chatError rid _ => rid
  | .voiceChatResponse rid _ _ _ => rid
  | .voiceAnswerAudio rid _ => rid

/-- Whether the event is the `new_screenshot` broadcast. -/
def Event.isNewScreenshot : Event → Bool
  | .newScreenshot _ => true
  | _ => false

/-- Whether the event is a `task_error` emission. -/
def Event.isTaskErr : Event → Bool
  | .taskError _ _ => true
  | _ => false

/-- Whether the event is an `stt_error` emission. -/
def Event.isSttError : Event → Bool
  | .sttError _ _ _ => true
  | _ => false

/-! ## core/chat.py — `chat_only`

`chat_only` resolves provider/model itself (same scan, fallback
`settings.DEFAULT_CHAT_PROVIDER or ModelProvider.OPENAI`), then dispatches
on the provider string.  The provider SDK call is abstracted as an
`Except String String` input: `.ok text` is the returned completion,
`.error e` an exception escaping `_chat_openai` / `_chat_gemini`.  Every
failure path returns a dict whose `provider` field is the sentinel
`"error"`; `chat_only` itself never raises. -/

/-- The dict returned by `chat_only` / `analyze_image`: `{provider,
model_id, message}`.  `modelId` is optional because some error dicts omit
the `model_id` key (`analyze_image`'s first failure return). -/
structure ChatResult where
  provider : String
  modelId : Option String
  message : String
deriving DecidableEq

/-- Port of `chat_only(prompt, history, model_id, provider, images_base64)`:
resolution, then provider dispatch guarded by API-key checks, with every
exception converted to an error-marked result dict.  Only openai and
gemini are dispatched; any other (even registry-valid) provider yields the
"not supported" error dict.  Quotes around interpolated values in the
original messages are elided. -/
def chatOnly (modelId providerName : Option String) (s : Settings)
    (call : Except String String) : ChatResult :=
  match resolveCore modelId providerName
      (if s.defaultChatProvider = "" then "openai" else s.defaultChatProvider) with
  | (some m, some p) =>
      if p = "openai" then
        if s.openaiKey then
          match call with
          | .ok t => { provider := p, modelId := some m, message := t }
          | .error e =>
              { provider := "error", modelId := some m,
                message := "与 AI (" ++ p ++ "/" ++ m ++ ") 通信时出错: " ++ e }
        else
          { provider := "error", modelId := some m,
            message := "配置错误: OpenAI API Key missing." }
      else if p = "gemini" then
        if s.geminiKey then
          match call with
          | .ok t => { provider := p, modelId := some m, message := t }
          | .error e =>
              { provider := "error", modelId := some m,
                message := "与 AI (" ++ p ++ "/" ++ m ++ ") 通信时出错: " ++ e }
        else
          { provider := "error", modelId := some m,
            message := "配置错误: Gemini API Key missing." }
      else
        { provider := "error", modelId := some m,
          message := "聊天功能未启用或提供商 " ++ p ++ " 不支持。" }
  | (m, _) =>
      { provider := "error", modelId := m,
        message := "无法为聊天确定有效的模型或提供商。Provider: " ++
          pyOpt (truthy providerName) ++ ", Model: " ++ pyOpt m }

/-! ## `_task_chat_only` (web_server.py) -/

/-- Inputs of `_task_chat_only` (the keyword arguments the routes pass). -/
structure ChatTaskInput where
  prompt : String
  requestId : String
  sid : Option String
  useStreaming : Bool
  modelId : Option String
  providerName : Option String
  imageBase64 : Option String
  allImagesBase64 : Option (List String)
deriving DecidableEq

/-- Result of running one background task: the shared state after the run,
the socket emissions in order, and whether the core chat/analysis backend
layer was invoked at all. -/
structure TaskRun where
  state : SharedState
  events : List Event
  backendInvoked : Bool
deriving DecidableEq

/-- The streaming loop of `_task_chat_only`: `stream_callback` appends each
chunk to the closure variable `full_response_text` and emits one
`chat_stream_chunk` per chunk, in call order.  Returns the accumulated text
and the emitted chunk events. -/
def streamRun (rid p m : String) : List String → String → String × List Event
  | [], acc => (acc, [])
  | c :: rest, acc =>
      let r := streamRun rid p m rest (acc ++ c)
      (r.1, Event.chatStreamChunk rid c p m :: r.2)

/-- Left-to-right concatenation of the chunk list (the text the runner
accumulates). -/
def concatAll : List String → String
  | [] => ""
  | c :: rest => c ++ concatAll rest

/-- Port of `_task_chat_only`.  Here `streamChunks` is the sequence of `stream_callback`
invocations `chat_only_stream` performs (on the success path, exactly the
chunks the backend yields, in production order); `backendReportedMsg` is
the `message` of the dict `chat_only_stream` returns, which the task
ignores in streaming mode; `callResult` is the non-streaming provider call
outcome fed to `chat_only`.  On resolution failure the task emits
`task_error` only when a socket id is present, and never reaches the core
chat layer.  The task reads but never writes the shared state. -/
def taskChatOnly (inp : ChatTaskInput) (st : SharedState)
    (streamChunks : List String) (_backendReportedMsg : String)
    (callResult : Except String String) : TaskRun :=
  match determineModelAndProvider inp.modelId inp.providerName
      st.settings.imageAnalysisProvider "openai" with
  | (some m, some p) =>
      if inp.useStreaming then
        let r := streamRun inp.requestId p m streamChunks ""
        { state := st,
          events := r.2 ++ [Event.chatStreamEnd inp.requestId r.1 p m],
          backendInvoked := true }
      else
        let res := chatOnly (some m) (some p) st.settings callResult
        let msg := if res.message = "" then "AI未返回有效内容" else res.message
        { state := st,
          events := [Event.chatResponse inp.requestId msg p m],
          backendInvoked := true }
  | _ =>
      { state := st,
        events :=
          match inp.sid with
          | some _ =>
              [Event.taskError inp.requestId
                ("无法为聊天确定有效的模型或提供商。请求的模型: " ++
                  pyOpt inp.modelId ++ ", 提供商: " ++ pyOpt inp.providerName)]
          | none => [],
        backendInvoked := false }

/-! ## core/analysis.py — `analyze_image`

`analyze_image` resolves provider/model itself (provider scan with fallback
`settings.image_analysis_provider or "openai"`; when the model id is absent
the provider default is taken and, for gemini/openai, substituted by a
vision-capable default unless the name already looks vision-capable), then
validates against the registry, and finally calls
`chat_only(..., image_base64=...)`.  `chat_only` has no parameter named
`image_base64` (it takes `images_base64`), so that call raises `TypeError`
before anything runs; the surrounding `except Exception` turns it into the
generic error dict.  Hence `analyze_image` returns an error-marked dict on
every input on which resolution succeeds. -/

/-- Message of the `TypeError` raised by calling `chat_only` with the
unexpected keyword `image_base64` (quotes elided). -/
def typeErrorMsg : String :=
  "chat_only() got an unexpected keyword argument image_base64"

/-- Substring test via split: `needle` occurs in `hay` iff splitting `hay`
on it yields more than one piece (Python `in` on strings). -/
def strHas (hay needle : String) : Bool :=
  (hay.splitOn needle).length != 1

/-- The vision-capability adjustment of the default model id in
`analyze_image` (only taken when no model id was requested). -/
def visionAdjust (p : String) : Option String → Option String
  | some m =>
      if p = "gemini" then
        if strHas m "vision" || strHas m "flash" || strHas m "pro" || strHas m "ultra" then
          some m
        else some "gemini-1.5-flash-latest"
      else if p = "openai" then
        if strHas m "gpt-4o" || strHas m "vision" then some m else some "gpt-4o"
      else some m
  | none => none

/-- Port of `analyze_image(img_bytes, prompt, model_id, provider)` modulo the image
bytes and prompt, which never influence the returned dict (the `chat_only`
call fails before they are used). -/
def analyzeImage (modelId providerName : Option String)
    (imageAnalysisProvider : String) : ChatResult :=
  let m0 := truthy modelId
  let p0 := truthy providerName
  let p1 : Option String :=
    match p0 with
    | some p => some p
    | none =>
        match m0 with
        | some m =>
            match firstProviderFor m with
            | some p => some p
            | none =>
                some (if imageAnalysisProvider = "" then "openai"
                      else imageAnalysisProvider)
        | none =>
            some (if imageAnalysisProvider = "" then "openai"
                  else imageAnalysisProvider)
  let m1 : Option String :=
    match m0 with
    | some m => some m
    | none =>
        match p1 with
        | some p => visionAdjust p (getDefaultModelForProvider p)
        | none => none
  match truthy m1, truthy p1 with
  | some m, some p =>
      if (modelsOf p).contains m then
        { provider := "error", modelId := some m,
          message := "图像分析出错 (" ++ p ++ "/" ++ m ++ "): " ++ typeErrorMsg }
      else
        { provider := "error", modelId := some m,
          message := "模型 " ++ m ++ " 对提供商 " ++ p ++ " 无效进行图像分析。" }
  | m, _ =>
      { provider := "error", modelId := m,
        message := "无法为图像分析确定AI模型或提供商。" }

/-! ## `_task_analyze_image` (web_server.py) -/

/-- Lines 219–242 of `_task_analyze_image` given the dict `r` returned by
the `analyze_image` call: build the history entry from `r` (with the
final model id as fallback for a missing `model_id` key), append it to
`HISTORY` under the lock, emit `analysis_result` and broadcast
`new_screenshot` — with no check of the `provider == "error"` marker. -/
def taskAnalyzeImageWith (r : ChatResult) (rid url promptToUse : String)
    (timestampMs : Nat) (finalModel : String) (st : SharedState) : TaskRun :=
  let entry : HistoryEntry :=
    { imageUrl := url, analysis := r.message, promptUsed := promptToUse,
      timestampMs := timestampMs, provider := r.provider,
      modelId := r.modelId.getD finalModel }
  { state := { st with history := st.history ++ [entry] },
    events := [Event.analysisResult rid url r.message, Event.newScreenshot entry],
    backendInvoked := true }

/-- The default analysis prompt used when the request carries none. -/
def defaultAnalysisPrompt : String :=
  "详细描述这张图片中的内容，并指出任何不寻常或有趣的地方。"

/-- Port of `_task_analyze_image(img_bytes, url, timestamp_ms, prompt, request_id,
sid, model_id, provider_name)`: resolve (third argument
`settings.image_analysis_provider`), emit `analysis_error` and stop on
resolution failure, else run the analysis and unconditionally append/emit.
The `except` branch around the analysis is unreachable because
`analyze_image` catches all exceptions internally. -/
def taskAnalyzeImage (url : String) (timestampMs : Nat)
    (prompt : Option String) (rid : String) (modelId providerName : Option String)
    (st : SharedState) : TaskRun :=
  match determineModelAndProvider modelId providerName
      st.settings.imageAnalysisProvider st.settings.imageAnalysisProvider with
  | (some m, some p) =>
      let promptToUse := (truthy prompt).getD defaultAnalysisPrompt
      taskAnalyzeImageWith (analyzeImage (some m) (some p) st.settings.imageAnalysisProvider)
        rid url promptToUse timestampMs m st
  | _ =>
      { state := st,
        events := [Event.analysisError rid url
          ("无法为图像分析确定有效的模型或提供商。请求的模型: " ++
            pyOpt modelId ++ ", 提供商: " ++ pyOpt providerName)],
        backendInvoked := false }

/-! ## `_task_process_voice` (web_server.py) -/

/-- Inputs of `_task_process_voice`. -/
structure VoiceTaskInput where
  requestId : String
  sid : Option String
  modelId : Option String
  providerName : Option String
  sttProviderArg : Option String
deriving DecidableEq

/-- The global-settings write at the top of `_task_process_voice`:
`if stt_provider: settings.stt_provider = stt_provider` (the comment in the
source calls it a temporary override, but nothing ever restores it). -/
def applySttOverride (s : Settings) : Option String → Settings
  | some sp => { s with sttProvider := sp }
  | none => s

/-- Port of `_task_process_voice(temp_audio_path, request_id, sid, model_id,
provider_name, stt_provider)`.  External stages are inputs: `sttOutcome`
is the `transcribe_audio` call (`.error` an exception, `.ok` its
`Optional[str]` return), `chatCall` the provider SDK call inside
`chat_only`, `ttsOutcome` the `generate_tts` call.  The pipeline: override
the global `settings.stt_provider`, resolve the chat target, run STT (on
exception or falsy transcript emit `stt_error` and stop), emit
`stt_result`, check the resolution (emit `chat_error` and stop when it
failed), run `chat_only` (which never raises; its result — error-marked
or not — is emitted as `voice_chat_response`), then TTS (success emits
`voice_answer_audio`; an exception is caught by the chat-stage handler and
emitted as `chat_error`).  The temp-file cleanup in `finally` touches no
shared state.  Note: the empty-string comparison mirrors Python
`if transcript:`. -/
def taskProcessVoice (vin : VoiceTaskInput) (st : SharedState)
    (sttOutcome : Except String (Option String))
    (chatCall : Except String String)
    (ttsOutcome : Except String String) : TaskRun :=
  let s1 := applySttOverride st.settings vin.sttProviderArg
  let st1 : SharedState := { st with settings := s1 }
  let res := determineModelAndProvider vin.modelId vin.providerName
    s1.imageAnalysisProvider "openai"
  let sttp := s1.sttProvider
  let rid := vin.requestId
  match sttOutcome with
  | .error e =>
      { state := st1,
        events := [Event.sttError rid ("语音识别出错: " ++ e) sttp],
        backendInvoked := false }
  | .ok t =>
      match t with
      | none =>
          { state := st1,
            events := [Event.sttError rid "语音识别未返回结果" sttp],
            backendInvoked := false }
      | some transcript =>
          if transcript = "" then
            { state := st1,
              events := [Event.sttError rid "语音识别未返回结果" sttp],
              backendInvoked := false }
          else
            match res with
            | (some m, some p) =>
                let r := chatOnly (some m) (some p) s1 chatCall
                let evChat :=
                  [Event.sttResult rid transcript sttp,
                   Event.voiceChatResponse rid transcript r.provider r.message]
                match ttsOutcome with
                | .ok url =>
                    { state := st1,
                      events := evChat ++ [Event.voiceAnswerAudio rid url],
                      backendInvoked := true }
                | .error e =>
                    { state := st1,
                      events := evChat ++
                        [Event.chatError rid ("AI 聊天处理失败: " ++ e)],
                      backendInvoked := true }
            | _ =>
                { state := st1,
                  events := [Event.sttResult rid transcript sttp,
                    Event.chatError rid "无法为语音转文字后的聊天确定AI模型。"],
                  backendInvoked := false }

/-! ## HTTP routes (web_server.py)

Flask/socket transport, token check, filesystem writes and JSON parsing of
well-formed bodies are outside the embedding; route inputs are the already
extracted fields, route outputs are the HTTP status plus the background
task spawned (if any). -/

/-- Python `str.strip()` on the default whitespace set. -/
def pyStrip (s : String) : String :=
  String.mk (((s.data.dropWhile Char.isWhitespace).reverse.dropWhile
    Char.isWhitespace).reverse)

/-- Outcome of `http_chat_route` (`POST /chat`): either a synchronous 400,
or 202 together with the keyword arguments of the spawned
`_task_chat_only` background task. -/
structure HttpChatOutcome where
  status : Nat
  task : Option ChatTaskInput
deriving DecidableEq

/-- Port of `http_chat_route`: reject 400 when the prompt is absent/blank, else
spawn `_task_chat_only` (sid=None, legacy single `image_data` field, no
image list) and answer 202 "processing" at once — resolution is not
consulted here. -/
def httpChatRoute (prompt : String) (modelId providerName : Option String)
    (useStreaming : Bool) (imageData : Option String) (rid : String) :
    HttpChatOutcome :=
  if pyStrip prompt = "" then { status := 400, task := none }
  else
    { status := 202,
      task := some
        { prompt := pyStrip prompt, requestId := rid, sid := none,
          useStreaming := useStreaming, modelId := modelId,
          providerName := providerName, imageBase64 := imageData,
          allImagesBase64 := none } }

/-! ## `/chat_with_file` — RequestNormalizer -/

/-- List `ALLOWED_IMAGE_EXT`. -/
def allowedImageExt : List String := [".jpg", ".jpeg", ".png", ".webp", ".gif"]

/-- List `ALLOWED_TEXT_EXT`. -/
def allowedTextExt : List String :=
  [".txt", ".md", ".py", ".js", ".css", ".html", ".json", ".csv", ".log",
   ".xml", ".yaml", ".yml"]

/-- Python `os.path.splitext(name)[1].lower()`: the lower-cased extension from the
last dot, leading dots of the name not counting as an extension start. -/
def extOf (name : String) : String :=
  let cs := name.data
  let lead := cs.takeWhile (fun c => c = '.')
  let rest := cs.drop lead.length
  if rest.contains '.' then
    String.mk (('.' :: (rest.reverse.takeWhile (fun c => c ≠ '.')).reverse).map
      Char.toLower)
  else ""

/-- Value of one base64 output character (standard alphabet). -/
def sixBitChar (n : Nat) : Char :=
  if n < 26 then Char.ofNat ('A'.toNat + n)
  else if n < 52 then Char.ofNat ('a'.toNat + (n - 26))
  else if n < 62 then Char.ofNat ('0'.toNat + (n - 52))
  else if n = 62 then '+'
  else '/'

/-- Python `base64.b64encode` on a byte list, producing the character list (3-byte
groups to 4 characters, `=`-padded tail). -/
def base64EncodeChars : List Nat → List Char
  | [] => []
  | [b1] =>
      [sixBitChar (b1 / 4), sixBitChar (b1 % 4 * 16), '=', '=']
  | [b1, b2] =>
      [sixBitChar (b1 / 4), sixBitChar (b1 % 4 * 16 + b2 / 16),
       sixBitChar (b2 % 16 * 4), '=']
  | b1 :: b2 :: b3 :: rest =>
      sixBitChar (b1 / 4) :: sixBitChar (b1 % 4 * 16 + b2 / 16) ::
      sixBitChar (b2 % 16 * 4 + b3 / 64) :: sixBitChar (b3 % 64) ::
      base64EncodeChars rest

/-- Python base64-encode of bytes to a UTF-8 string. -/
def base64Encode (bytes : List Nat) : String :=
  String.mk (base64EncodeChars bytes)

/-- One uploaded attachment as the filesystem presents it to the route:
its (secure) filename, raw bytes, and the result of
`read_text(encoding='utf-8', errors='ignore')` on those bytes (the decode
is external; for any such decode the character count is at most the byte
count, which theorems take as a hypothesis where needed).
`stat().st_size` is `bytes.length`. -/
structure FileOnDisk where
  filename : String
  bytes : List Nat
  textDecoded : List Char
deriving DecidableEq

/-- The truncation marker appended to an over-budget text file. -/
def truncMarker : String := "\n[...文件内容过长，已截断...]"

/-- The text-file content injected for one text attachment: the decoded
text cut to `MAX_TEXT_FILE_CHARS`, with the truncation marker appended
exactly when the cut is full-length and the on-disk size exceeds the
budget. -/
def textContentOf (maxChars : Nat) (f : FileOnDisk) : List Char :=
  let t := f.textDecoded.take maxChars
  if t.length = maxChars ∧ f.bytes.length > maxChars then t ++ truncMarker.data
  else t

/-- The delimited block (header naming the file, content, footer) appended
to the prompt for a text attachment. -/
def textBlock (maxChars : Nat) (f : FileOnDisk) : String :=
  "\n\n--- 用户上传的文本文件: " ++ f.filename ++ " ---\n" ++
    String.mk (textContentOf maxChars f) ++ "\n--- 文件结束 ---"

/-- The note appended to the prompt for an unsupported attachment. -/
def unsupportedNote (f : FileOnDisk) : String :=
  "\n\n[用户上传了文件: " ++ f.filename ++ " (类型: " ++ extOf f.filename ++
    ", 不支持内容预览)]"

/-- The upload loop of `chat_with_file_route`: one pass over the uploaded
files, skipping files with an empty filename, appending base64-encoded
image files to the image accumulator (initialized by the caller with the
pasted images) and text blocks / unsupported notes to the prompt-part
accumulator. -/
def processFiles (maxChars : Nat) : List FileOnDisk → List String → List String →
    List String × List String
  | [], images, parts => (images, parts)
  | f :: rest, images, parts =>
      if f.filename = "" then processFiles maxChars rest images parts
      else
        let e := extOf f.filename
        if allowedImageExt.contains e then
          processFiles maxChars rest (images ++ [base64Encode f.bytes]) parts
        else if allowedTextExt.contains e then
          processFiles maxChars rest images (parts ++ [textBlock maxChars f])
        else
          processFiles maxChars rest images (parts ++ [unsupportedNote f])

/-- Outcome of a normalizing route: synchronous rejection with a status
code, or a spawned `_task_chat_only` invocation. -/
inductive RouteResult where
  | rejected (status : Nat)
  | spawned (task : ChatTaskInput)
deriving DecidableEq

/-- The normalized image list of a route outcome, if a task was spawned. -/
def RouteResult.imagesOf : RouteResult → Option (Option (List String))
  | .rejected _ => none
  | .spawned t => some t.allImagesBase64

/-- Port of `chat_with_file_route` (`POST /chat_with_file`): reject 400 when the
form `request_id` is missing or when prompt, uploads and pasted images are
all empty; otherwise run the upload loop with the image accumulator
initialized to the pasted images, join the collected text parts onto the
prompt, and spawn `_task_chat_only` with the combined image list (or
`None` when it is empty). -/
def chatWithFileRoute (requestId : Option String) (prompt : String)
    (modelId providerName : Option String) (useStreaming : Bool)
    (files : List FileOnDisk) (pastedImages : List String)
    (maxChars : Nat) : RouteResult :=
  match requestId with
  | none => .rejected 400
  | some rid =>
      let p := pyStrip prompt
      if p = "" ∧ files = [] ∧ pastedImages = [] then .rejected 400
      else
        let r := processFiles maxChars files pastedImages []
        .spawned
          { prompt := p ++ concatAll r.2, requestId := rid, sid := none,
            useStreaming := useStreaming, modelId := modelId,
            providerName := providerName, imageBase64 := none,
            allImagesBase64 := if r.1 = [] then none else some r.1 }

/-! ## `/upload_raw` — base64 normalization -/

/-- Python `b64_string.split(",", 1)[1] if "," in b64_string else b64_string`:
strip everything up to and including the first comma. -/
def stripDataUrl (s : String) : String :=
  if s.data.contains ',' then
    String.mk ((s.data.dropWhile (fun c => c ≠ ',')).drop 1)
  else s

/-- Python padding `b64_data` with `=` to a multiple of
four characters. -/
def padB64 (cs : List Char) : List Char :=
  cs ++ List.replicate ((4 - cs.length % 4) % 4) '='

/-- Membership of the standard base64 alphabet. -/
def isB64Char (c : Char) : Bool :=
  ('A' ≤ c ∧ c ≤ 'Z') ∨ ('a' ≤ c ∧ c ≤ 'z') ∨ ('0' ≤ c ∧ c ≤ '9') ∨
    c = '+' ∨ c = '/'

/-- Numeric value of a base64 alphabet character (0 for padding; only
applied to alphabet characters). -/
def b64Val (c : Char) : Nat :=
  if 'A' ≤ c ∧ c ≤ 'Z' then c.toNat - 'A'.toNat
  else if 'a' ≤ c ∧ c ≤ 'z' then c.toNat - 'a'.toNat + 26
  else if '0' ≤ c ∧ c ≤ '9' then c.toNat - '0'.toNat + 52
  else if c = '+' then 62
  else if c = '/' then 63
  else 0

/-- Decode a run of data characters: full quads to 3 bytes, a trailing pair
to 1 byte, a trailing triple to 2 bytes (a single trailing character is
ruled out before this is called). -/
def b64DecodeChunks : List Char → List Nat
  | c1 :: c2 :: c3 :: c4 :: rest =>
      (b64Val c1 * 4 + b64Val c2 / 16) ::
      (b64Val c2 % 16 * 16 + b64Val c3 / 4) ::
      (b64Val c3 % 4 * 64 + b64Val c4) :: b64DecodeChunks rest
  | [c1, c2, c3] =>
      [b64Val c1 * 4 + b64Val c2 / 16, b64Val c2 % 16 * 16 + b64Val c3 / 4]
  | [c1, c2] => [b64Val c1 * 4 + b64Val c2 / 16]
  | [_] => []
  | [] => []

/-- Python `base64.b64decode` (default non-validating mode) on inputs whose
padding, if any, is trailing: characters outside alphabet-or-`=` are
discarded, then the input must be data characters followed only by `=`,
with total length a multiple of four and not exactly one data character in
the final quad; otherwise `binascii.Error` (modelled as `none`). -/
def b64Decode (cs : List Char) : Option (List Nat) :=
  let kept := cs.filter (fun c => isB64Char c || c = '=')
  let d := kept.takeWhile isB64Char
  let rest := kept.drop d.length
  if rest.all (fun c => c = '=') ∧ (d.length + rest.length) % 4 = 0 ∧
      d.length % 4 ≠ 1 then
    some (b64DecodeChunks d)
  else none

/-- Outcome of `upload_raw_route` (`POST /upload_raw`) for a request that
does carry an `image` string: 400 with no task when decoding the
normalized string fails, else the decoded bytes are saved and the analysis
task is spawned with a 202 (the save-failure 500 path is filesystem I/O,
outside this embedding). -/
inductive UploadRawResult where
  | badRequest
  | accepted (imgBytes : List Nat) (spawned : Bool)
deriving DecidableEq

/-- Port of `upload_raw_route` on the submitted image string. -/
def uploadRawRoute (image : String) : UploadRawResult :=
  match b64Decode (padB64 (stripDataUrl image).data) with
  | none => .badRequest
  | some bytes => .accepted bytes true

/-! ## Derived views and fixtures -/

/-- The image contributions of the upload loop in isolation: the non-empty-
named files with an allowed image extension, in upload order, base64
encoded. -/
def fileImages (files : List FileOnDisk) : List String :=
  (files.filter (fun f => f.filename != "" &&
    allowedImageExt.contains (extOf f.filename))).map (fun f => base64Encode f.bytes)

/-- A concrete settings fixture (the documented defaults: gemini as image
analysis provider, no dedicated default chat provider, both keys set,
`MAX_TEXT_FILE_CHARS` 4000). -/
def sampleSettings : Settings :=
  { sttProvider := "google", imageAnalysisProvider := "gemini",
    defaultChatProvider := "", openaiKey := true, geminiKey := true,
    maxTextFileChars := 4000 }

/-- A concrete shared-state fixture with empty history. -/
def sampleState : SharedState := { settings := sampleSettings, history := [] }

/-- An arbitrary interleaving of two event sequences, as produced by the
cooperative scheduler delivering two concurrent tasks' emissions onto the
shared socket: each task's own subsequence keeps its order. -/
inductive Interleaves : List Event → List Event → List Event → Prop where
  | nil : Interleaves [] [] []
  | left {x : Event} {xs ys zs : List Event} :
      Interleaves xs ys zs → Interleaves (x :: xs) ys (x :: zs)
  | right {y : Event} {xs ys zs : List Event} :
      Interleaves xs ys zs → Interleaves xs (y :: ys) (y :: zs)

/-! ## Helper lemmas -/

theorem append_ne_empty_left (a b : String) (h : a ≠ "") : a ++ b ≠ "" := by
  intro heq
  apply h
  have hd := congrArg String.data heq
  rw [String.data_append] at hd
  rcases List.append_eq_nil.mp hd with ⟨ha, _⟩
  exact String.ext ha

theorem interleaves_nil_right : ∀ l : List Event, Interleaves l [] l
  | [] => .nil
  | _ :: t => .left (interleaves_nil_right t)

theorem interleaves_filter {pred : Event → Bool} :
    ∀ {xs ys zs : List Event}, Interleaves xs ys zs →
      (∀ x ∈ xs, pred x = true) → (∀ y ∈ ys, pred y = false) →
      zs.filter pred = xs := by
  intro xs ys zs h
  induction h with
  | nil => intro _ _; rfl
  | @left x xs ys zs _ ih =>
      intro hx hy
      have hpx := hx x (List.mem_cons_self _ _)
      rw [List.filter_cons, if_pos hpx,
        ih (fun a ha => hx a (List.mem_cons_of_mem _ ha)) hy]
  | @right y xs ys zs _ ih =>
      intro hx hy
      have hpy := hy y (List.mem_cons_self _ _)
      rw [List.filter_cons, if_neg (by simp [hpy]),
        ih hx (fun a ha => hy a (List.mem_cons_of_mem _ ha))]

theorem streamRun_spec (rid p m : String) :
    ∀ (chunks : List String) (acc : String),
      streamRun rid p m chunks acc =
        (acc ++ concatAll chunks,
         chunks.map (fun c => Event.chatStreamChunk rid c p m))
  | [], acc => by simp [streamRun, concatAll, String.append_empty]
  | c :: rest, acc => by
      simp [streamRun, concatAll, streamRun_spec rid p m rest (acc ++ c),
        String.append_assoc]

theorem resolveCore_contains {mi pn : Option String} {fb m p : String}
    (h : resolveCore mi pn fb = (some m, some p)) :
    (modelsOf p).contains m = true := by
  simp only [resolveCore] at h
  split at h
  · split at h
    · rename_i hc
      rw [Prod.mk.injEq] at h
      obtain ⟨h1, h2⟩ := h
      obtain rfl := Option.some.inj h1
      obtain rfl := Option.some.inj h2
      exact hc
    · simp at h
  · simp at h

theorem contains_ne_empty {p m : String}
    (h : (modelsOf p).contains m = true) : m ≠ "" ∧ p ≠ "" := by
  constructor
  · rintro rfl
    unfold modelsOf at h
    split at h
    · exact absurd h (by decide)
    · split at h
      · exact absurd h (by decide)
      · split at h
        · exact absurd h (by decide)
        · split at h
          · exact absurd h (by decide)
          · exact absurd h (by decide)
  · rintro rfl
    rw [show modelsOf "" = [] from rfl] at h
    simp at h

theorem resolveCore_given {m p : String} (hm : m ≠ "") (hp : p ≠ "")
    (hc : (modelsOf p).contains m = true) (fb : String) :
    resolveCore (some m) (some p) fb = (some m, some p) := by
  have hmem : m ∈ modelsOf p := by simpa using hc
  unfold resolveCore
  simp [truthy, hm, hp, hmem]

theorem firstProviderFor_spec {m pf : String}
    (h : firstProviderFor m = some pf) :
    (modelsOf pf).contains m = true ∧ pf ≠ "" := by
  unfold firstProviderFor at h
  split at h
  next hc =>
    cases h
    exact ⟨by rw [show modelsOf "openai" = openaiModels from rfl]; exact hc, by decide⟩
  next =>
    split at h
    next hc =>
      cases h
      exact ⟨by rw [show modelsOf "gemini" = geminiModels from rfl]; exact hc, by decide⟩
    next =>
      split at h
      next hc =>
        cases h
        exact ⟨by rw [show modelsOf "claude" = claudeModels from rfl]; exact hc, by decide⟩
      next =>
        split at h
        next hc =>
          cases h
          exact ⟨by rw [show modelsOf "grok" = grokModels from rfl]; exact hc, by decide⟩
        next => exact absurd h (by simp)

theorem processFiles_images (maxChars : Nat) :
    ∀ (files : List FileOnDisk) (images parts : List String),
      (processFiles maxChars files images parts).1 = images ++ fileImages files
  | [], images, parts => by simp [processFiles, fileImages]
  | f :: rest, images, parts => by
      by_cases h1 : f.filename = ""
      · simp [processFiles, fileImages, h1, List.filter_cons,
          processFiles_images maxChars rest images parts]
      · by_cases h2 : extOf f.filename ∈ allowedImageExt
        · simp [processFiles, fileImages, h1, h2, List.filter_cons,
            List.append_assoc,
            processFiles_images maxChars rest (images ++ [base64Encode f.bytes]) parts]
        · by_cases h3 : extOf f.filename ∈ allowedTextExt
          · simp [processFiles, fileImages, h1, h2, h3, List.filter_cons,
              processFiles_images maxChars rest images (parts ++ [textBlock maxChars f])]
          · simp [processFiles, fileImages, h1, h2, h3, List.filter_cons,
              processFiles_images maxChars rest images (parts ++ [unsupportedNote f])]

theorem dropWhile_append_all {p : Char → Bool} :
    ∀ {l₁ : List Char}, (∀ x ∈ l₁, p x = true) → ∀ l₂ : List Char,
      (l₁ ++ l₂).dropWhile p = l₂.dropWhile p := by
  intro l₁
  induction l₁ with
  | nil => intro _ l₂; rfl
  | cons a t ih =>
      intro h l₂
      rw [List.cons_append, List.dropWhile_cons,
        if_pos (h a (List.mem_cons_self _ _)),
        ih (fun x hx => h x (List.mem_cons_of_mem _ hx)) l₂]

theorem contains_append_comma (l₁ l₂ : List Char) (c : Char) :
    (l₁ ++ c :: l₂).contains c = true := by
  induction l₁ with
  | nil => simp [List.contains_cons]
  | cons a t ih => simp [List.contains_cons, ih]

theorem empty_append_str (s : String) : "" ++ s = s := rfl

theorem taskChatOnly_unresolved (inp : ChatTaskInput) (st : SharedState)
    (chunks : List String) (brm : String) (call : Except String String)
    (hres : determineModelAndProvider inp.modelId inp.providerName
      st.settings.imageAnalysisProvider "openai" = (none, none)) :
    taskChatOnly inp st chunks brm call =
      { state := st,
        events :=
          match inp.sid with
          | some _ =>
              [Event.taskError inp.requestId
                ("无法为聊天确定有效的模型或提供商。请求的模型: " ++
                  pyOpt inp.modelId ++ ", 提供商: " ++ pyOpt inp.providerName)]
          | none => [],
        backendInvoked := false } := by
  unfold taskChatOnly
  rw [hres]

/-! ## Claim theorems -/

/-- C1 (code_bug evaluation): on a `/upload_raw`-style analysis task with a
valid target (`gpt-4o`/`openai`), `analyze_image` reports an error result
(its `chat_only` call raises `TypeError` on the unexpected keyword
`image_base64`), yet `_task_analyze_image` appends the error entry to the
history and broadcasts `new_screenshot` — contradicting the claim that no
entry is added and no broadcast occurs when the backend call fails. -/
theorem c1_failed_analysis_still_appended :
    (analyzeImage (some "gpt-4o") (some "openai") "gemini").provider = "error" ∧
    (taskAnalyzeImage "/screenshots/x.png" 1234 none "r1" (some "gpt-4o")
        (some "openai") sampleState).state.history =
      [{ imageUrl := "/screenshots/x.png",
         analysis := "图像分析出错 (openai/gpt-4o): " ++ typeErrorMsg,
         promptUsed := defaultAnalysisPrompt, timestampMs := 1234,
         provider := "error", modelId := "gpt-4o" }] ∧
    (taskAnalyzeImage "/screenshots/x.png" 1234 none "r1" (some "gpt-4o")
        (some "openai") sampleState).events.any Event.isNewScreenshot = true :=
  ⟨rfl, rfl, rfl⟩

/-- C2 counterexample: for `model_id="nonexistent-model"` the resolution
fails, yet `/chat` answers 202 "processing" and spawns the background task
— the claim's "no background task is spawned" and "surfaced synchronously"
are false on the code. -/
theorem c2_unresolved_still_spawns_task :
    determineModelAndProvider (some "nonexistent-model") none "gemini" "openai" =
      (none, none) ∧
    (httpChatRoute "hi" (some "nonexistent-model") none false none "r1").status
      = 202 ∧
    (httpChatRoute "hi" (some "nonexistent-model") none false none "r1").task =
      some { prompt := "hi", requestId := "r1", sid := none,
             useStreaming := false, modelId := some "nonexistent-model",
             providerName := none, imageBase64 := none,
             allImagesBase64 := none } :=
  ⟨rfl, rfl, rfl⟩

/-- C2 (amended): an unresolvable request is still accepted by `/chat` with
202 and a spawned task; the failure is detected inside the task, which
makes no backend call and leaves the shared state untouched; it emits one
asynchronous `task_error` event when a socket id is attached and nothing at
all for the HTTP route's sid-less task. -/
theorem c2_unresolved_async_error_no_backend (prompt : String)
    (modelId providerName : Option String) (useStreaming : Bool)
    (imageData : Option String) (rid : String) (st : SharedState)
    (chunks : List String) (brm : String) (call : Except String String)
    (hprompt : pyStrip prompt ≠ "")
    (hres : determineModelAndProvider modelId providerName
      st.settings.imageAnalysisProvider "openai" = (none, none)) :
    (httpChatRoute prompt modelId providerName useStreaming imageData rid).status
      = 202 ∧
    ∃ tinp,
      (httpChatRoute prompt modelId providerName useStreaming imageData rid).task
        = some tinp ∧
      (taskChatOnly tinp st chunks brm call).events = [] ∧
      (taskChatOnly tinp st chunks brm call).backendInvoked = false ∧
      (taskChatOnly tinp st chunks brm call).state = st ∧
      ∀ s' : String,
        (taskChatOnly { tinp with sid := some s' } st chunks brm call).events =
          [Event.taskError rid
            ("无法为聊天确定有效的模型或提供商。请求的模型: " ++
              pyOpt modelId ++ ", 提供商: " ++ pyOpt providerName)] ∧
        (taskChatOnly { tinp with sid := some s' } st chunks brm
          call).backendInvoked = false := by
  have hroute : httpChatRoute prompt modelId providerName useStreaming imageData
      rid =
      { status := 202,
        task := some
          { prompt := pyStrip prompt, requestId := rid, sid := none,
            useStreaming := useStreaming, modelId := modelId,
            providerName := providerName, imageBase64 := imageData,
            allImagesBase64 := none } } := by
    unfold httpChatRoute
    rw [if_neg hprompt]
  refine ⟨by rw [hroute], ⟨_, by rw [hroute], ?_, ?_, ?_, ?_⟩⟩
  · rw [taskChatOnly_unresolved _ _ _ _ _ hres]
  · rw [taskChatOnly_unresolved _ _ _ _ _ hres]
  · rw [taskChatOnly_unresolved _ _ _ _ _ hres]
  · intro s'
    refine ⟨?_, ?_⟩
    · rw [taskChatOnly_unresolved _ _ _ _ _ hres]
    · rw [taskChatOnly_unresolved _ _ _ _ _ hres]

/-- C2 witness: the amended theorem applied at the concrete Scenario-D
input. -/
theorem c2_unresolved_witness :
    (httpChatRoute "hi" (some "nonexistent-model") none false none "r1").status
      = 202 :=
  (c2_unresolved_async_error_no_backend "hi" (some "nonexistent-model") none
    false none "r1" sampleState [] "" (.ok "") (by decide) (by decide)).1

/-- C3: a streaming chat task with a resolved target whose backend yields
the chunk list `chunks` delivers one `chat_stream_chunk` per chunk in
production order, then exactly one `chat_stream_end` whose `full_message`
is the runner-accumulated concatenation (independent of the message the
backend layer returns, which the task ignores); and in any interleaving
with events of other request ids, the subsequence tagged with this task's
request id is exactly this sequence. -/
theorem c3_streaming_order_and_isolation (inp : ChatTaskInput)
    (st : SharedState) (chunks : List String) (brm : String)
    (call : Except String String) (m p : String)
    (hres : determineModelAndProvider inp.modelId inp.providerName
      st.settings.imageAnalysisProvider "openai" = (some m, some p))
    (hstream : inp.useStreaming = true) :
    (taskChatOnly inp st chunks brm call).events =
      chunks.map (fun c => Event.chatStreamChunk inp.requestId c p m) ++
        [Event.chatStreamEnd inp.requestId (concatAll chunks) p m] ∧
    ∀ other zs : List Event, (∀ e ∈ other, e.reqId ≠ inp.requestId) →
      Interleaves (taskChatOnly inp st chunks brm call).events other zs →
      zs.filter (fun e => e.reqId == inp.requestId) =
        (taskChatOnly inp st chunks brm call).events := by
  have hev : (taskChatOnly inp st chunks brm call).events =
      chunks.map (fun c => Event.chatStreamChunk inp.requestId c p m) ++
        [Event.chatStreamEnd inp.requestId (concatAll chunks) p m] := by
    unfold taskChatOnly
    rw [hres]
    simp [hstream, streamRun_spec, empty_append_str]
  refine ⟨hev, ?_⟩
  intro other zs hother hint
  rw [hev] at hint ⊢
  refine interleaves_filter hint ?_ ?_
  · intro x hx
    rcases List.mem_append.mp hx with hx | hx
    · obtain ⟨c, _, rfl⟩ := List.mem_map.mp hx
      simp [Event.reqId]
    · simp only [List.mem_singleton] at hx
      subst hx
      simp [Event.reqId]
  · intro y hy
    simpa using hother y hy

/-- C3 witness: the chunk stub `["c1","c2","c3"]` produces the three
ordered partial events followed by one end event carrying `"c1c2c3"`. -/
theorem c3_streaming_order_witness :
    (taskChatOnly
        { prompt := "hi", requestId := "r1", sid := some "s1",
          useStreaming := true, modelId := some "gpt-4o",
          providerName := some "openai", imageBase64 := none,
          allImagesBase64 := none } sampleState ["c1", "c2", "c3"] "ignored"
        (.ok "unused")).events =
      [Event.chatStreamChunk "r1" "c1" "openai" "gpt-4o",
       Event.chatStreamChunk "r1" "c2" "openai" "gpt-4o",
       Event.chatStreamChunk "r1" "c3" "openai" "gpt-4o",
       Event.chatStreamEnd "r1" "c1c2c3" "openai" "gpt-4o"] := by
  rw [(c3_streaming_order_and_isolation _ sampleState ["c1", "c2", "c3"]
    "ignored" (.ok "unused") "gpt-4o" "openai" (by decide) rfl).1]
  rfl

theorem chatOnly_openai_error (m : String) (s : Settings) (e : String)
    (hm : m ≠ "") (hc : (modelsOf "openai").contains m = true)
    (hkey : s.openaiKey = true) :
    chatOnly (some m) (some "openai") s (.error e) =
      { provider := "error", modelId := some m,
        message := "与 AI (openai/" ++ m ++ ") 通信时出错: " ++ e } := by
  have h1 : chatOnly (some m) (some "openai") s (.error e) =
      { provider := "error", modelId := some m,
        message := "与 AI (" ++ "openai" ++ "/" ++ m ++ ") 通信时出错: " ++ e } := by
    unfold chatOnly
    rw [resolveCore_given hm (by decide) hc]
    simp [hkey]
  rw [h1]
  rfl

/-- C4 counterexample: with a valid `gpt-4o`/`openai` target and a backend
call that raises, the non-streaming task emits a single `chat_response`
complete event whose text is the error message, and no error event at all
— the claim's "backend failure is surfaced as an error event …, never as a
complete event whose text happens to be an error message" is false. -/
theorem c4_backend_failure_emitted_as_complete :
    (taskChatOnly
        { prompt := "hi", requestId := "r1", sid := none,
          useStreaming := false, modelId := some "gpt-4o",
          providerName := some "openai", imageBase64 := none,
          allImagesBase64 := none } sampleState [] "x" (.error "boom")).events =
      [Event.chatResponse "r1" "与 AI (openai/gpt-4o) 通信时出错: boom"
        "openai" "gpt-4o"] ∧
    (taskChatOnly
        { prompt := "hi", requestId := "r1", sid := none,
          useStreaming := false, modelId := some "gpt-4o",
          providerName := some "openai", imageBase64 := none,
          allImagesBase64 := none } sampleState [] "x"
        (.error "boom")).events.all (fun ev => !ev.isTaskErr) = true :=
  ⟨rfl, rfl⟩

/-- C4 (amended): a non-streaming chat task with a resolved target emits
exactly one event, always the `chat_response` complete event (so "exactly
one of complete or error, never both" holds trivially); a backend failure
comes back from `chat_only` as an error-marked dict whose marker the task
drops, so the failure is surfaced as that complete event carrying the
error text and is not distinguishable from a successful result by event
type. -/
theorem c4_single_complete_event (inp : ChatTaskInput) (st : SharedState)
    (chunks : List String) (brm : String) (call : Except String String)
    (m p e : String)
    (hres : determineModelAndProvider inp.modelId inp.providerName
      st.settings.imageAnalysisProvider "openai" = (some m, some p))
    (hns : inp.useStreaming = false) :
    (∃ msg, (taskChatOnly inp st chunks brm call).events =
      [Event.chatResponse inp.requestId msg p m]) ∧
    (p = "openai" → st.settings.openaiKey = true → call = .error e →
      (taskChatOnly inp st chunks brm call).events =
        [Event.chatResponse inp.requestId
          ("与 AI (openai/" ++ m ++ ") 通信时出错: " ++ e) p m]) := by
  have hbase : ∀ c : Except String String,
      (taskChatOnly inp st chunks brm c).events =
        [Event.chatResponse inp.requestId
          (if (chatOnly (some m) (some p) st.settings c).message = ""
           then "AI未返回有效内容"
           else (chatOnly (some m) (some p) st.settings c).message) p m] := by
    intro c
    unfold taskChatOnly
    rw [hres]
    simp [hns]
  constructor
  · exact ⟨_, hbase call⟩
  · rintro rfl hkey rfl
    have hcont : (modelsOf "openai").contains m = true := resolveCore_contains hres
    have hm : m ≠ "" := (contains_ne_empty hcont).1
    rw [hbase, chatOnly_openai_error m st.settings e hm hcont hkey]
    rw [if_neg (append_ne_empty_left _ _
      (append_ne_empty_left _ _ (append_ne_empty_left _ _ (by decide))))]

/-- C4 witness: the amended theorem applied at the concrete failing-backend
input. -/
theorem c4_single_complete_event_witness :
    (taskChatOnly
        { prompt := "hi", requestId := "r1", sid := none,
          useStreaming := false, modelId := some "gpt-4o",
          providerName := some "openai", imageBase64 := none,
          allImagesBase64 := none } sampleState [] "x" (.error "boom")).events =
      [Event.chatResponse "r1"
        ("与 AI (openai/" ++ "gpt-4o" ++ ") 通信时出错: " ++ "boom")
        "openai" "gpt-4o"] :=
  (c4_single_complete_event
    { prompt := "hi", requestId := "r1", sid := none, useStreaming := false,
      modelId := some "gpt-4o", providerName := some "openai",
      imageBase64 := none, allImagesBase64 := none } sampleState [] "x"
    (.error "boom") "gpt-4o" "openai" "boom" (by decide) rfl).2 rfl rfl rfl

/-- C5 counterexample: one uploaded png (bytes `[1,2,3]`, base64 `"AQID"`)
plus one pasted image: the normalized list is pasted-first,
`["PASTED", "AQID"]`, not the claimed uploads-first `["AQID", "PASTED"]`. -/
theorem c5_pasted_images_come_first :
    (chatWithFileRoute (some "r1") "hi" none none true
        [{ filename := "a.png", bytes := [1, 2, 3], textDecoded := [] }]
        ["PASTED"] 4000).imagesOf = some (some ["PASTED", "AQID"]) ∧
    base64Encode [1, 2, 3] = "AQID" ∧
    (["PASTED", "AQID"] : List String) ≠ ["AQID", "PASTED"] :=
  ⟨rfl, rfl, by decide⟩

/-- C5 (amended): for every accepted `/chat_with_file` request the
normalized image list is all pasted images first (in paste order) followed
by the uploaded image files (in upload order, base64-encoded), the whole
list passed as `None` when empty. -/
theorem c5_image_order_pasted_then_uploads (rid prompt : String)
    (modelId providerName : Option String) (useStreaming : Bool)
    (files : List FileOnDisk) (pasted : List String) (maxChars : Nat)
    (hne : ¬(pyStrip prompt = "" ∧ files = [] ∧ pasted = [])) :
    (chatWithFileRoute (some rid) prompt modelId providerName useStreaming
        files pasted maxChars).imagesOf =
      some (if pasted ++ fileImages files = [] then none
            else some (pasted ++ fileImages files)) := by
  unfold chatWithFileRoute
  dsimp only
  rw [if_neg hne]
  simp [RouteResult.imagesOf, processFiles_images]

/-- C5 witness: the amended theorem applied at the concrete one-upload,
one-pasted-image input. -/
theorem c5_image_order_witness :
    (chatWithFileRoute (some "r1") "hi" none none true
        [{ filename := "a.png", bytes := [1, 2, 3], textDecoded := [] }]
        ["PASTED"] 4000).imagesOf =
      some (if (["PASTED"] ++ fileImages
          [{ filename := "a.png", bytes := [1, 2, 3], textDecoded := [] }]) = []
        then none
        else some (["PASTED"] ++ fileImages
          [{ filename := "a.png", bytes := [1, 2, 3], textDecoded := [] }])) :=
  c5_image_order_pasted_then_uploads "r1" "hi" none none true
    [{ filename := "a.png", bytes := [1, 2, 3], textDecoded := [] }]
    ["PASTED"] 4000 (by decide)

theorem taskProcessVoice_state (vin : VoiceTaskInput) (st : SharedState)
    (stt : Except String (Option String)) (chatCall tts : Except String String) :
    (taskProcessVoice vin st stt chatCall tts).state =
      { st with settings := applySttOverride st.settings vin.sttProviderArg } := by
  unfold taskProcessVoice
  rcases stt with e | t
  · rfl
  · rcases t with _ | s
    · rfl
    · dsimp only
      by_cases hs : s = ""
      · rw [if_pos hs]
      · rw [if_neg hs]
        split
        · split <;> rfl
        · rfl

/-- C6 counterexample: a voice request carrying `stt_provider="whisper"`
changes the global settings object (its `stt_provider` field) — visible to
every other in-flight request — so "leaves the global settings object
unchanged" is false. -/
theorem c6_voice_task_mutates_settings :
    (taskProcessVoice
        { requestId := "r1", sid := none, modelId := none,
          providerName := none, sttProviderArg := some "whisper" } sampleState
        (.error "x") (.ok "y") (.ok "z")).state.settings ≠
      sampleState.settings := by decide

/-- C6 (amended): chat tasks leave the shared state untouched and analysis
tasks only append to the history (settings unchanged); but a voice task
overwrites the global `settings.stt_provider` with its `stt_provider`
argument whenever one is supplied (and leaves the history unchanged) — a
cross-task mutation of shared state beyond the history append. -/
theorem c6_frame_per_task (cin : ChatTaskInput) (vin : VoiceTaskInput)
    (url : String) (ts : Nat) (pr : Option String) (rid : String)
    (mi pn : Option String) (st : SharedState) (chunks : List String)
    (brm : String) (call : Except String String)
    (stt : Except String (Option String)) (chatCall tts : Except String String) :
    (taskChatOnly cin st chunks brm call).state = st ∧
    (taskAnalyzeImage url ts pr rid mi pn st).state.settings = st.settings ∧
    (∃ tail, (taskAnalyzeImage url ts pr rid mi pn st).state.history =
      st.history ++ tail) ∧
    (taskProcessVoice vin st stt chatCall tts).state.settings =
      applySttOverride st.settings vin.sttProviderArg ∧
    (taskProcessVoice vin st stt chatCall tts).state.history = st.history := by
  refine ⟨?_, ?_, ?_, ?_, ?_⟩
  · unfold taskChatOnly
    split
    · split <;> rfl
    · rfl
  · unfold taskAnalyzeImage taskAnalyzeImageWith
    split <;> rfl
  · unfold taskAnalyzeImage taskAnalyzeImageWith
    split
    · exact ⟨_, rfl⟩
    · exact ⟨[], by simp⟩
  · rw [taskProcessVoice_state]
  · rw [taskProcessVoice_state]

/-- C7: a text attachment whose decoded content exceeds the
`MAX_TEXT_FILE_CHARS` budget (with at least as many on-disk bytes as
decoded characters, true of any UTF-8 file) is injected as exactly the
first `maxChars` characters followed by the explicit truncation marker,
inside the header/footer block naming the file — never silently cut. -/
theorem c7_text_truncation (maxChars : Nat) (f : FileOnDisk)
    (hlong : maxChars < f.textDecoded.length)
    (hsize : f.textDecoded.length ≤ f.bytes.length) :
    textContentOf maxChars f = f.textDecoded.take maxChars ++ truncMarker.data ∧
    textBlock maxChars f =
      "\n\n--- 用户上传的文本文件: " ++ f.filename ++ " ---\n" ++
        String.mk (f.textDecoded.take maxChars ++ truncMarker.data) ++
        "\n--- 文件结束 ---" := by
  have h1 : (f.textDecoded.take maxChars).length = maxChars := by
    rw [List.length_take]
    omega
  have h2 : textContentOf maxChars f =
      f.textDecoded.take maxChars ++ truncMarker.data := by
    unfold textContentOf
    rw [if_pos ⟨h1, by omega⟩]
  refine ⟨h2, ?_⟩
  unfold textBlock
  rw [h2]

/-- C7 witness: a five-character file with a three-character budget keeps
exactly three characters plus the marker. -/
theorem c7_text_truncation_witness :
    textContentOf 3
      { filename := "notes.txt", bytes := [97, 98, 99, 100, 101],
        textDecoded := ['a', 'b', 'c', 'd', 'e'] } =
      ['a', 'b', 'c', 'd', 'e'].take 3 ++ truncMarker.data :=
  (c7_text_truncation 3
    { filename := "notes.txt", bytes := [97, 98, 99, 100, 101],
      textDecoded := ['a', 'b', 'c', 'd', 'e'] } (by decide) (by decide)).1

/-- C8: with provider omitted and a model id that some registered provider
carries, the resolver picks the first such provider in the fixed registry
order, returns the pair unchanged, and the pair passes the
registry-membership validation (the model belongs to that provider's
set). -/
theorem c8_provider_inferred_from_registry_scan (m pf iap dpt : String)
    (hm : m ≠ "") (h : firstProviderFor m = some pf) :
    determineModelAndProvider (some m) none iap dpt = (some m, some pf) ∧
    (modelsOf pf).contains m = true := by
  obtain ⟨hc, hpf⟩ := firstProviderFor_spec h
  refine ⟨?_, hc⟩
  have hmem : m ∈ modelsOf pf := by simpa using hc
  unfold determineModelAndProvider resolveCore
  simp [truthy, hm, h, hpf, hmem]

/-- C8 witness: Scenario C — `claude-3-opus` with provider omitted resolves
to the claude provider. -/
theorem c8_provider_inferred_witness :
    determineModelAndProvider (some "claude-3-opus") none "gemini" "openai" =
      (some "claude-3-opus", some "claude") :=
  (c8_provider_inferred_from_registry_scan "claude-3-opus" "claude" "gemini"
    "openai" (by decide) (by decide)).1

/-- C9: when the speech-to-text stage fails — `transcribe_audio` raises, or
returns `None` or an empty transcript — the voice pipeline emits exactly
one `stt_error` event and stops: the chat backend layer is never invoked,
no chat or TTS event is emitted, and the history is untouched. -/
theorem c9_stt_failure_stops_pipeline (vin : VoiceTaskInput) (st : SharedState)
    (stt : Except String (Option String)) (chatCall tts : Except String String)
    (hfail : (∃ e, stt = .error e) ∨ stt = .ok none ∨ stt = .ok (some "")) :
    (∃ msg, (taskProcessVoice vin st stt chatCall tts).events =
      [Event.sttError vin.requestId msg
        (applySttOverride st.settings vin.sttProviderArg).sttProvider]) ∧
    (taskProcessVoice vin st stt chatCall tts).backendInvoked = false ∧
    (taskProcessVoice vin st stt chatCall tts).state.history = st.history := by
  rcases hfail with ⟨e, rfl⟩ | rfl | rfl
  · exact ⟨⟨_, rfl⟩, rfl, rfl⟩
  · exact ⟨⟨_, rfl⟩, rfl, rfl⟩
  · exact ⟨⟨_, rfl⟩, rfl, rfl⟩

/-- C9 witness: a raising STT stub never reaches the chat backend. -/
theorem c9_stt_failure_witness :
    (taskProcessVoice
        { requestId := "r1", sid := none, modelId := none,
          providerName := none, sttProviderArg := none } sampleState
        (.error "mic failure") (.ok "hello") (.ok "url")).backendInvoked =
      false :=
  (c9_stt_failure_stops_pipeline
    { requestId := "r1", sid := none, modelId := none, providerName := none,
      sttProviderArg := none } sampleState (.error "mic failure") (.ok "hello")
    (.ok "url") (Or.inl ⟨"mic failure", rfl⟩)).2.1

/-- C10: `/upload_raw` rejects with 400 (and spawns nothing) exactly when
base64-decoding the normalized string fails; the normalization strips
everything up to and including the first comma and pads with `=` to a
multiple of four; consequently a data-URL-prefixed payload and an unpadded
payload are both accepted (and decode to the same PNG-header bytes), while
a payload that stays invalid after padding is rejected. -/
theorem c10_upload_raw_normalization :
    (∀ s : String, uploadRawRoute s = .badRequest ↔
      b64Decode (padB64 (stripDataUrl s).data) = none) ∧
    (∀ pre post : String, pre.data.contains ',' = false →
      stripDataUrl (pre ++ "," ++ post) = post) ∧
    (∀ t : String, (padB64 t.data).length % 4 = 0) ∧
    uploadRawRoute "data:image/png;base64,iVBORw0KGgo" =
      .accepted [137, 80, 78, 71, 13, 10, 26, 10] true ∧
    uploadRawRoute "iVBORw0KGgo" =
      .accepted [137, 80, 78, 71, 13, 10, 26, 10] true ∧
    uploadRawRoute "iVBO1" = .badRequest := by
  refine ⟨?_, ?_, ?_, rfl, rfl, rfl⟩
  · intro s
    unfold uploadRawRoute
    rcases h : b64Decode (padB64 (stripDataUrl s).data) with _ | bytes <;>
      simp [h]
  · intro pre post hpre
    have hnotin : ',' ∉ pre.data := by simpa using hpre
    have hd : (pre ++ "," ++ post).data = pre.data ++ ',' :: post.data := by
      rw [String.data_append, String.data_append, List.append_assoc]
      rfl
    have hall : ∀ x ∈ pre.data, (fun c => decide (c ≠ ',')) x = true := by
      intro x hx
      simp only [decide_eq_true_eq]
      rintro rfl
      exact hnotin hx
    unfold stripDataUrl
    rw [hd, if_pos (contains_append_comma pre.data post.data ','),
      dropWhile_append_all hall, List.dropWhile_cons]
    simp
  · intro t
    unfold padB64
    rw [List.length_append, List.length_replicate]
    omega

/-- C10 witness: the strip-to-first-comma conjunct applied at a concrete
data-URL input. -/
theorem c10_upload_raw_witness :
    stripDataUrl ("data:image/png;base64" ++ "," ++ "AQID") = "AQID" :=
  c10_upload_raw_normalization.2.1 "data:image/png;base64" "AQID" (by decide)

end WebDispatch
